import Mathlib

/-!
Shallow embedding of `src/verification/verify_project_modal.py` (Quill-AI).

The script drives a headless browser via Playwright:

```python
def verify_project_modal():
    with sync_playwright() as p:
        browser = p.chromium.launch(headless=True)
        page = browser.new_page()
        try:
            page.goto("http://localhost:3000", timeout=10000)
            page.get_by_role("button", name="New Novel").click()
            page.wait_for_selector("text=Start a New Novel")
            page.screenshot(path="verification/project_modal_a11y.png")
            print("Screenshot captured: verification/project_modal_a11y.png")
            label = page.locator("label[for='new-book-title']")
            if label.is_visible():
                print("Label for new-book-title found.")
            required_star = label.locator(".text-red-400")
            if required_star.is_visible():
                print("Required star visible.")
        except Exception as e:
            print(f"Error: {e}")
        finally:
            browser.close()
```

We model the environment (browser, network, DOM, filesystem behaviour of the
Playwright calls) as an explicit structure of call results, and the run of the
script as a pure function from the environment to an event trace together with
the exception (if any) that propagates out of `verify_project_modal`.
Browser-launch and page-creation sit OUTSIDE the `try`, exactly as in the
source; the `finally` belongs to that `try`, so it does not cover them.
-/

/-- The fixed navigation target of the script (line 10 of the source). -/
def gotoUrl : String := "http://localhost:3000"

/-- The explicit navigation timeout, in milliseconds (line 10 of the source). -/
def gotoTimeoutMs : Nat := 10000

/-- Accessible role used to locate the button (line 13). -/
def buttonRole : String := "button"

/-- Accessible-name option passed to `get_by_role` (line 13). -/
def buttonAccName : String := "New Novel"

/-- Selector awaited for the modal (line 16): `text=Start a New Novel`. -/
def modalSelector : String := "text=Start a New Novel"

/-- Fixed relative screenshot path (lines 19-20). -/
def screenshotPath : String := "verification/project_modal_a11y.png"

/-- Selector of the label query (line 24): `label[for='new-book-title']`. -/
def labelSelector : String := "label[for=\x27new-book-title\x27]"

/-- Selector of the required-marker query within the label subtree (line 28). -/
def starSelector : String := ".text-red-400"

/-- Confirmation line printed after a successful screenshot (line 20). -/
def screenshotLine : String := "Screenshot captured: verification/project_modal_a11y.png"

/-- Confirmation line printed when the label is visible (line 26). -/
def labelLine : String := "Label for new-book-title found."

/-- Confirmation line printed when the required marker is visible (line 30). -/
def starLine : String := "Required star visible."

/-- Behaviour of the external world (Playwright, browser, app under test,
filesystem) at each call site of the script.  An `Except.error msg` models the
corresponding Python call raising an exception whose string form is `msg`.
`screenshot` returns the content (as an abstract `Nat` identifier) of the PNG
that the call writes to its path on success. -/
structure Env where
  launch : Except String Unit
  new_page : Except String Unit
  goto : String → Nat → Except String Unit
  clickByRole : String → String → Except String Unit
  wait_for_selector : String → Except String Unit
  screenshot : String → Except String Nat
  locatorVisible : String → Except String Bool
  sublocatorVisible : String → String → Except String Bool
  closeResult : Except String Unit

/-- One observable action of a run, in program order. -/
inductive Event where
  | launch : Event
  | newPage : Event
  | goto (url : String) (timeoutMs : Nat) : Event
  | click (role accName : String) : Event
  | waitSel (sel : String) : Event
  | shot (path : String) : Event
  | write (path : String) (content : Nat) : Event
  | print (line : String) : Event
  | labelQuery (sel : String) : Event
  | labelVisCheck (result : Bool) : Event
  | starQuery (scopeSel sel : String) : Event
  | starVisCheck (result : Bool) : Event
  | close : Event
  deriving DecidableEq, Repr

/-- The body of the `try` block (source lines 9-30): navigation, click, modal
wait, screenshot plus its confirmation print, label query and visibility
check, required-marker query and visibility check.  Returns the events the
body performed, and the message of the exception it raised, if any. -/
def tryBody (env : Env) : List Event × Option String :=
  let t1 := [Event.goto gotoUrl gotoTimeoutMs]
  match env.goto gotoUrl gotoTimeoutMs with
  | .error e => (t1, some e)
  | .ok _ =>
    let t2 := t1 ++ [Event.click buttonRole buttonAccName]
    match env.clickByRole buttonRole buttonAccName with
    | .error e => (t2, some e)
    | .ok _ =>
      let t3 := t2 ++ [Event.waitSel modalSelector]
      match env.wait_for_selector modalSelector with
      | .error e => (t3, some e)
      | .ok _ =>
        let t4 := t3 ++ [Event.shot screenshotPath]
        match env.screenshot screenshotPath with
        | .error e => (t4, some e)
        | .ok content =>
          let t5 := t4 ++ [Event.write screenshotPath content, Event.print screenshotLine]
          let t6 := t5 ++ [Event.labelQuery labelSelector]
          match env.locatorVisible labelSelector with
          | .error e => (t6, some e)
          | .ok lv =>
            let t7 := t6 ++ [Event.labelVisCheck lv]
                         ++ (if lv then [Event.print labelLine] else [])
            let t8 := t7 ++ [Event.starQuery labelSelector starSelector]
            match env.sublocatorVisible labelSelector starSelector with
            | .error e => (t8, some e)
            | .ok sv =>
              let t9 := t8 ++ [Event.starVisCheck sv]
                           ++ (if sv then [Event.print starLine] else [])
              (t9, none)

/-- The whole routine.  `p.chromium.launch` and `browser.new_page` run before
the `try`, so an exception there propagates and skips the `finally`; an
exception inside the `try` body is caught, printed with the `"Error: "`
prefix, and then the `finally` closes the browser.  The second component is
the exception (message) propagating out of `verify_project_modal`, `none` if
the routine returns normally. -/
def verify_project_modal (env : Env) : List Event × Option String :=
  match env.launch with
  | .error e => ([Event.launch], some e)
  | .ok _ =>
    match env.new_page with
    | .error e => ([Event.launch, Event.newPage], some e)
    | .ok _ =>
      let body := tryBody env
      let afterTry := [Event.launch, Event.newPage] ++ body.1 ++
        (match body.2 with
         | some e => [Event.print ("Error: " ++ e)]
         | none => [])
      match env.closeResult with
      | .error e => (afterTry ++ [Event.close], some e)
      | .ok _ => (afterTry ++ [Event.close], none)

/-- The event trace of a run. -/
def traceOf (env : Env) : List Event := (verify_project_modal env).1

/-- The exception propagating out of the routine, if any. -/
def raisedOf (env : Env) : Option String := (verify_project_modal env).2

/-- Projection of a print event to its line. -/
def printedLine : Event → Option String
  | .print s => some s
  | _ => none

/-- Projection of a filesystem-write event to its `(path, content)` pair. -/
def writtenPair : Event → Option (String × Nat)
  | .write p c => some (p, c)
  | _ => none

/-- The console output of a run: the printed lines, in order. -/
def outputOf (env : Env) : List String :=
  (traceOf env).filterMap printedLine

/-- The filesystem writes of a run: `(path, content)` pairs, in order. -/
def writesOf (env : Env) : List (String × Nat) :=
  (traceOf env).filterMap writtenPair

/-- How many times the run called `browser.close()`. -/
def closeCountOf (env : Env) : Nat :=
  (traceOf env).count Event.close

/-- Apply a run's writes to a filesystem (a map from path to file content),
later writes overwriting earlier ones. -/
def applyWrites (fs : String → Option Nat) (ws : List (String × Nat)) : String → Option Nat :=
  ws.foldl (fun f w => fun p => if p = w.1 then some w.2 else f p) fs

/-- Does a console line start with the `"Error: "` prefix? -/
def startsWithErr (s : String) : Bool :=
  "Error: ".toList.isPrefixOf s.toList

/-- The extra console line the `except` handler contributes: the caught
message prefixed with `"Error: "`, or nothing when the body succeeded. -/
def errTail : Option String → List Event
  | some e => [Event.print ("Error: " ++ e)]
  | none => []

/-- The exception a `browser.close()` call in the `finally` block lets
propagate. -/
def closeRaise : Except String Unit → Option String
  | .error e => some e
  | .ok _ => none

lemma run_eq (env : Env) (hl : env.launch = .ok ()) (hp : env.new_page = .ok ()) :
    verify_project_modal env =
      ([Event.launch, Event.newPage] ++ (tryBody env).1 ++ errTail (tryBody env).2
          ++ [Event.close],
        closeRaise env.closeResult) := by
  unfold verify_project_modal
  rw [hl, hp]
  rcases hb : (tryBody env).2 with _ | e <;>
    rcases hc : env.closeResult with e2 | u <;>
      simp [hb, hc, errTail, closeRaise]

/-- An environment on which every browser call succeeds: the app is up, the
button and modal exist, the label and required marker are visible. -/
def envAllOk : Env where
  launch := .ok ()
  new_page := .ok ()
  goto := fun _ _ => .ok ()
  clickByRole := fun _ _ => .ok ()
  wait_for_selector := fun _ => .ok ()
  screenshot := fun _ => .ok 7
  locatorVisible := fun _ => .ok true
  sublocatorVisible := fun _ _ => .ok true
  closeResult := .ok ()

/-- An environment with no server listening at the target address: the
navigation call raises, everything else would succeed. -/
def envGotoFail : Env :=
  { envAllOk with goto := fun _ _ => .error "net::ERR_CONNECTION_REFUSED" }

/-- An environment where launching the browser itself raises. -/
def envLaunchFail : Env :=
  { envAllOk with launch := .error "browser executable missing" }

/-- An environment where the browser launches but opening a page raises. -/
def envNewPageFail : Env :=
  { envAllOk with new_page := .error "browser has crashed" }

/-- An environment where the label query reports the label not visible. -/
def envLabelHidden : Env :=
  { envAllOk with locatorVisible := fun _ => .ok false }

/-- An element of the page's accessibility tree: its role and its accessible
name. -/
structure DomElement where
  role : String
  accName : String
  deriving DecidableEq, Repr

/-- ASCII-style case folding of a string, character by character. -/
def lowerStr (s : String) : List Char :=
  s.toList.map Char.toLower

/-- Does `pat` occur as a contiguous substring of `s`? -/
def subOccurs (pat : List Char) : List Char → Bool
  | [] => pat.isEmpty
  | c :: rest => pat.isPrefixOf (c :: rest) || subOccurs pat rest

lemma subOccurs_iff_infix (pat : List Char) :
    ∀ s : List Char, subOccurs pat s = true ↔ pat <:+: s := by
  intro s
  induction s with
  | nil => simp [subOccurs, List.infix_nil, List.isEmpty_iff]
  | cons c rest ih =>
    simp only [subOccurs, Bool.or_eq_true, List.infix_cons_iff, ih,
      List.isPrefixOf_iff_prefix]

/-- Modelled from the Playwright documentation of `get_by_role` (the library
call at source line 13 — the library itself is not part of this repository):
the `name` option matches the accessible name, and by default "matching is
case-insensitive and searches for a substring"; the call site passes no
`exact=True`.  So an element matches when its role equals the requested role
and the case-folded requested name occurs as a substring of the case-folded
accessible name. -/
def getByRoleMatches (role req : String) (el : DomElement) : Bool :=
  el.role == role && subOccurs (lowerStr req) (lowerStr el.accName)

/-- The spec sentence's reading of step 5: only elements whose accessible
name equals the requested string exactly. -/
def specExactMatch (role req : String) (el : DomElement) : Bool :=
  el.role == role && el.accName == req

/-- Error message of a `click()` whose locator never resolves: the auto-wait
expires and the call raises. -/
def clickFailMsg : String :=
  "Timeout 30000ms exceeded waiting for get_by_role"

/-- Result of `page.get_by_role(role, name=req).click()` against a page whose
accessibility tree holds the elements `els`: the click succeeds when some
element matches the locator, and otherwise the auto-wait expires and the call
raises an element-not-found timeout. -/
def clickFor (els : List DomElement) (role req : String) : Except String Unit :=
  if els.any (getByRoleMatches role req) then .ok () else .error clickFailMsg

lemma close_not_mem_tryBody (env : Env) : Event.close ∉ (tryBody env).1 := by
  unfold tryBody
  rcases env.goto gotoUrl gotoTimeoutMs with e | u
  · simp
  rcases env.clickByRole buttonRole buttonAccName with e | u
  · simp
  rcases env.wait_for_selector modalSelector with e | u
  · simp
  rcases env.screenshot screenshotPath with e | c
  · simp
  rcases env.locatorVisible labelSelector with e | lv
  · simp
  rcases env.sublocatorVisible labelSelector starSelector with e | sv
  · rcases lv <;> simp
  · rcases lv <;> rcases sv <;> simp

lemma tryBody_print_mem (env : Env) (l : String)
    (h : Event.print l ∈ (tryBody env).1) :
    l = screenshotLine ∨ l = labelLine ∨ l = starLine := by
  unfold tryBody at h
  rcases hg : env.goto gotoUrl gotoTimeoutMs with e | u <;> rw [hg] at h
  · simp at h
  rcases hc : env.clickByRole buttonRole buttonAccName with e | u <;> rw [hc] at h
  · simp at h
  rcases hw : env.wait_for_selector modalSelector with e | u <;> rw [hw] at h
  · simp at h
  rcases hs : env.screenshot screenshotPath with e | c <;> rw [hs] at h
  · simp at h
  rcases hv : env.locatorVisible labelSelector with e | lv <;> rw [hv] at h
  · simp at h; tauto
  rcases hz : env.sublocatorVisible labelSelector starSelector with e | sv <;> rw [hz] at h
  · rcases lv <;> simp at h <;> tauto
  · rcases lv <;> rcases sv <;> simp at h <;> tauto

lemma startsWithErr_append (e : String) : startsWithErr ("Error: " ++ e) = true := by
  have hsplit : ("Error: " ++ e).toList = "Error: ".toList ++ e.toList := by
    simp [String.toList, String.data_append]
  rw [startsWithErr, hsplit]
  exact List.isPrefixOf_iff_prefix.mpr (List.prefix_append _ _)

lemma tryBody_goto_error (env : Env) (msg : String)
    (hg : env.goto gotoUrl gotoTimeoutMs = Except.error msg) :
    tryBody env = ([Event.goto gotoUrl gotoTimeoutMs], some msg) := by
  unfold tryBody
  rw [hg]

/-- C1 (amended): every exception raised inside the `try` body — navigation,
button click, modal wait, screenshot, label check, required-marker check
(steps 4-9) — is caught by the top-level handler and printed with the
`"Error: "` prefix, and nothing raised in those steps propagates out of
`verify_project_modal` (what propagates is exactly what `browser.close()` in
the `finally` block raises, if anything).  Exceptions raised by browser
launch (step 2) or page creation (step 3) are outside the `try` and are not
covered by the handler. -/
theorem tryBody_exceptions_caught (env : Env)
    (hl : env.launch = Except.ok ()) (hp : env.new_page = Except.ok ()) :
    raisedOf env = closeRaise env.closeResult ∧
    ∀ e, (tryBody env).2 = some e → Event.print ("Error: " ++ e) ∈ traceOf env := by
  have hrun := run_eq env hl hp
  refine ⟨?_, ?_⟩
  · simp [raisedOf, hrun]
  · intro e he
    simp [traceOf, hrun, he, errTail]

/-- C1 witness: on the no-server environment the try-body exception is
downgraded to a printed `"Error: "` line and nothing propagates. -/
theorem tryBody_exceptions_caught_witness :
    raisedOf envGotoFail = closeRaise envGotoFail.closeResult ∧
    Event.print ("Error: " ++ "net::ERR_CONNECTION_REFUSED") ∈ traceOf envGotoFail :=
  ⟨(tryBody_exceptions_caught envGotoFail rfl rfl).1,
   (tryBody_exceptions_caught envGotoFail rfl rfl).2 "net::ERR_CONNECTION_REFUSED" rfl⟩

/-- C1 counterexample: a browser-launch exception (step 2) propagates out of
`verify_project_modal` and no `"Error: "` line — indeed no line at all — is
printed, contradicting the claim that exceptions of steps 2-9 are caught. -/
theorem launch_exception_uncaught :
    raisedOf envLaunchFail = some "browser executable missing" ∧
    outputOf envLaunchFail = [] :=
  ⟨rfl, rfl⟩

/-- C2 (amended): provided browser launch and page creation succeed, the
browser is closed exactly once on every exit path — normal completion or an
exception in navigation, click, modal wait, screenshot, label or
required-marker check — and the close is the final action of the run. -/
theorem close_exactly_once (env : Env)
    (hl : env.launch = Except.ok ()) (hp : env.new_page = Except.ok ()) :
    closeCountOf env = 1 ∧ (traceOf env).getLast? = some Event.close := by
  have hrun := run_eq env hl hp
  constructor
  · have hnc : (tryBody env).1.count Event.close = 0 :=
      List.count_eq_zero.mpr (close_not_mem_tryBody env)
    rcases hb : (tryBody env).2 with _ | e <;>
      simp [closeCountOf, traceOf, hrun, hb, errTail, List.count_append, hnc]
  · show (verify_project_modal env).1.getLast? = some Event.close
    rw [hrun]
    exact List.getLast?_concat _

/-- C2 witness: on the no-server environment the browser is closed exactly
once, as the final action. -/
theorem close_exactly_once_witness :
    closeCountOf envGotoFail = 1 ∧ (traceOf envGotoFail).getLast? = some Event.close :=
  close_exactly_once envGotoFail rfl rfl

/-- C2 counterexample: when `browser.new_page()` raises, the exception
propagates (the `try`/`finally` has not been entered yet) and the browser is
never closed — an exit path of `verify_project_modal` on which the close
count is 0, not 1. -/
theorem new_page_exception_skips_close :
    raisedOf envNewPageFail = some "browser has crashed" ∧
    closeCountOf envNewPageFail = 0 :=
  ⟨rfl, rfl⟩

/-- C3: if navigation raises (no server listening at `http://localhost:3000`),
the console contains a line starting with `"Error: "`, no screenshot file is
written, the routine terminates normally (nothing propagates), and the
browser is closed exactly once. -/
theorem no_server_behaviour (env : Env) (msg : String)
    (hl : env.launch = Except.ok ()) (hp : env.new_page = Except.ok ())
    (hg : env.goto gotoUrl gotoTimeoutMs = Except.error msg)
    (hc : env.closeResult = Except.ok ()) :
    ("Error: " ++ msg) ∈ outputOf env ∧
    startsWithErr ("Error: " ++ msg) = true ∧
    writesOf env = [] ∧
    raisedOf env = none ∧
    closeCountOf env = 1 := by
  have hrun := run_eq env hl hp
  rw [tryBody_goto_error env msg hg] at hrun
  refine ⟨?_, startsWithErr_append msg, ?_, ?_, ?_⟩
  · simp [outputOf, traceOf, hrun, errTail, printedLine]
  · simp [writesOf, traceOf, hrun, errTail, writtenPair]
  · simp [raisedOf, hrun, hc, closeRaise]
  · simp [closeCountOf, traceOf, hrun, errTail, List.count_append, List.count_cons]

/-- C3 witness: concrete no-server environment. -/
theorem no_server_behaviour_witness :
    ("Error: " ++ "net::ERR_CONNECTION_REFUSED") ∈ outputOf envGotoFail ∧
    startsWithErr ("Error: " ++ "net::ERR_CONNECTION_REFUSED") = true ∧
    writesOf envGotoFail = [] ∧
    raisedOf envGotoFail = none ∧
    closeCountOf envGotoFail = 1 :=
  no_server_behaviour envGotoFail "net::ERR_CONNECTION_REFUSED" rfl rfl rfl rfl

/-- A page environment whose accessibility tree holds no element matching the
button locator (e.g. an empty tree), everything else succeeding. -/
def envNoButton : Env :=
  { envAllOk with clickByRole := fun role req => clickFor [] role req }

lemma tryBody_click_error (env : Env) (msg : String)
    (hg : env.goto gotoUrl gotoTimeoutMs = Except.ok ())
    (hc : env.clickByRole buttonRole buttonAccName = Except.error msg) :
    tryBody env =
      ([Event.goto gotoUrl gotoTimeoutMs, Event.click buttonRole buttonAccName],
        some msg) := by
  unfold tryBody
  rw [hg, hc]
  rfl

/-- C4 counterexample: the locator of line 13 passes no `exact=True`, so
`get_by_role` name matching is case-insensitive substring matching — a button
whose accessible name is "best New Novel maker", which does not equal
"New Novel", still matches, refuting "matching only elements whose accessible
name equals that string exactly". -/
theorem get_by_role_not_exact :
    getByRoleMatches buttonRole buttonAccName
      { role := "button", accName := "best New Novel maker" } = true ∧
    specExactMatch buttonRole buttonAccName
      { role := "button", accName := "best New Novel maker" } = false := by
  constructor
  · decide
  · decide

/-- C4 (amended): step 5 locates the element to click by accessible role
`"button"` and name option `"New Novel"`, where the name is matched
case-insensitively as a substring of the accessible name (not exactly); when
no element of the page matches — in particular when no element has role
`"button"` with the case-folded `"New Novel"` occurring in its case-folded
accessible name — the click fails with an element-not-found timeout error,
the top-level handler prints it, and the modal wait never runs. -/
theorem get_by_role_click (env : Env) (els : List DomElement)
    (hl : env.launch = Except.ok ()) (hp : env.new_page = Except.ok ())
    (hg : env.goto gotoUrl gotoTimeoutMs = Except.ok ())
    (hcl : ∀ role req, env.clickByRole role req = clickFor els role req)
    (hnone : ∀ el ∈ els,
      ¬(el.role = "button" ∧ lowerStr "New Novel" <:+: lowerStr el.accName)) :
    Event.click "button" "New Novel" ∈ traceOf env ∧
    Event.print ("Error: " ++ clickFailMsg) ∈ traceOf env ∧
    Event.waitSel modalSelector ∉ traceOf env := by
  have hany : els.any (getByRoleMatches buttonRole buttonAccName) = false := by
    rw [List.any_eq_false]
    intro el hel
    have hno := hnone el hel
    simp only [getByRoleMatches, buttonRole, buttonAccName, Bool.and_eq_true,
      beq_iff_eq, subOccurs_iff_infix, not_and] at hno ⊢
    exact hno
  have hclick : env.clickByRole buttonRole buttonAccName = Except.error clickFailMsg := by
    rw [hcl]
    simp [clickFor, hany]
  have hrun := run_eq env hl hp
  rw [tryBody_click_error env clickFailMsg hg hclick] at hrun
  refine ⟨?_, ?_, ?_⟩
  · simp [traceOf, hrun, errTail, buttonRole, buttonAccName]
  · simp [traceOf, hrun, errTail]
  · simp [traceOf, hrun, errTail]

/-- C4 witness: a page with an empty accessibility tree — the click step
fails, its timeout error is printed, and the modal wait is skipped. -/
theorem get_by_role_click_witness :
    Event.click "button" "New Novel" ∈ traceOf envNoButton ∧
    Event.print ("Error: " ++ clickFailMsg) ∈ traceOf envNoButton ∧
    Event.waitSel modalSelector ∉ traceOf envNoButton :=
  get_by_role_click envNoButton [] rfl rfl rfl (fun _ _ => rfl)
    (fun el hel => absurd hel (List.not_mem_nil el))

lemma tryBody_goto_head (env : Env) :
    Event.goto gotoUrl gotoTimeoutMs ∈ (tryBody env).1 := by
  unfold tryBody
  rcases env.goto gotoUrl gotoTimeoutMs with e | u
  · simp
  rcases env.clickByRole buttonRole buttonAccName with e | u
  · simp
  rcases env.wait_for_selector modalSelector with e | u
  · simp
  rcases env.screenshot screenshotPath with e | c
  · simp
  rcases env.locatorVisible labelSelector with e | lv
  · simp
  rcases env.sublocatorVisible labelSelector starSelector with e | sv
  · rcases lv <;> simp
  · rcases lv <;> rcases sv <;> simp

lemma tryBody_goto_mem (env : Env) (u : String) (t : Nat)
    (h : Event.goto u t ∈ (tryBody env).1) :
    u = gotoUrl ∧ t = gotoTimeoutMs := by
  unfold tryBody at h
  rcases hg : env.goto gotoUrl gotoTimeoutMs with e | x <;> rw [hg] at h
  · simp at h; tauto
  rcases hc : env.clickByRole buttonRole buttonAccName with e | x <;> rw [hc] at h
  · simp at h; tauto
  rcases hw : env.wait_for_selector modalSelector with e | x <;> rw [hw] at h
  · simp at h; tauto
  rcases hs : env.screenshot screenshotPath with e | c <;> rw [hs] at h
  · simp at h; tauto
  rcases hv : env.locatorVisible labelSelector with e | lv <;> rw [hv] at h
  · simp at h; tauto
  rcases hz : env.sublocatorVisible labelSelector starSelector with e | sv <;> rw [hz] at h
  · rcases lv <;> simp at h <;> tauto
  · rcases lv <;> rcases sv <;> simp at h <;> tauto

/-- C7: navigation targets exactly `http://localhost:3000` with a bounded
wait of exactly 10000 ms — the navigation event of every run carries those
two constants and no navigation with any other target or bound occurs — and
when that bounded wait fails (the call raises, e.g. on timeout), the message
is printed by the top-level handler and nothing raised there propagates
(what propagates is exactly what the final `browser.close()` raises). -/
theorem goto_fixed_target (env : Env)
    (hl : env.launch = Except.ok ()) (hp : env.new_page = Except.ok ()) :
    Event.goto "http://localhost:3000" 10000 ∈ traceOf env ∧
    (∀ u t, Event.goto u t ∈ traceOf env → u = "http://localhost:3000" ∧ t = 10000) ∧
    ∀ e, env.goto "http://localhost:3000" 10000 = Except.error e →
      Event.print ("Error: " ++ e) ∈ traceOf env ∧
      raisedOf env = closeRaise env.closeResult := by
  have hrun := run_eq env hl hp
  refine ⟨?_, ?_, ?_⟩
  · have hmem := tryBody_goto_head env
    simp only [traceOf, hrun, List.mem_append, List.mem_cons, gotoUrl, gotoTimeoutMs] at hmem ⊢
    tauto
  · intro u t hmem
    simp only [traceOf, hrun, List.mem_append] at hmem
    rcases hmem with ((h12 | hbody) | herr) | hclose
    · simp at h12
    · have := tryBody_goto_mem env u t hbody
      simpa [gotoUrl, gotoTimeoutMs] using this
    · rcases hb : (tryBody env).2 with _ | e <;> rw [hb] at herr <;> simp [errTail] at herr
    · simp at hclose
  · intro e hge
    have hb := tryBody_goto_error env e (by simpa [gotoUrl, gotoTimeoutMs] using hge)
    rw [hb] at hrun
    constructor
    · simp [traceOf, hrun, errTail]
    · simp [raisedOf, hrun]

/-- C7 witness: on the no-server environment the run performs the navigation
with the fixed address and timeout and prints the caught navigation error. -/
theorem goto_fixed_target_witness :
    Event.goto "http://localhost:3000" 10000 ∈ traceOf envGotoFail ∧
    Event.print ("Error: " ++ "net::ERR_CONNECTION_REFUSED") ∈ traceOf envGotoFail :=
  ⟨(goto_fixed_target envGotoFail rfl rfl).1,
   ((goto_fixed_target envGotoFail rfl rfl).2.2 "net::ERR_CONNECTION_REFUSED" rfl).1⟩

lemma startsWithErr_screenshotLine : startsWithErr screenshotLine = false := by decide

lemma errLine_ne (e s : String) (hs : startsWithErr s = false) : "Error: " ++ e ≠ s := by
  intro h
  rw [← h, startsWithErr_append e] at hs
  cases hs

lemma tryBody_shot_success (env : Env)
    (h : Event.print screenshotLine ∈ (tryBody env).1 ∨
         ∃ c, Event.write screenshotPath c ∈ (tryBody env).1) :
    env.goto gotoUrl gotoTimeoutMs = Except.ok () ∧
    env.clickByRole buttonRole buttonAccName = Except.ok () ∧
    env.wait_for_selector modalSelector = Except.ok () ∧
    ∃ c, env.screenshot screenshotPath = Except.ok c := by
  unfold tryBody at h
  rcases hg : env.goto gotoUrl gotoTimeoutMs with e | ⟨⟩ <;> rw [hg] at h
  · simp at h
  rcases hc : env.clickByRole buttonRole buttonAccName with e | ⟨⟩ <;> rw [hc] at h
  · simp at h
  rcases hw : env.wait_for_selector modalSelector with e | ⟨⟩ <;> rw [hw] at h
  · simp at h
  rcases hs : env.screenshot screenshotPath with e | c <;> rw [hs] at h
  · simp at h
  exact ⟨rfl, rfl, rfl, c, rfl⟩

lemma tryBody_success_shape (env : Env) (c : Nat)
    (hg : env.goto gotoUrl gotoTimeoutMs = Except.ok ())
    (hc : env.clickByRole buttonRole buttonAccName = Except.ok ())
    (hw : env.wait_for_selector modalSelector = Except.ok ())
    (hs : env.screenshot screenshotPath = Except.ok c) :
    ∃ rest, (tryBody env).1 =
      [Event.goto gotoUrl gotoTimeoutMs, Event.click buttonRole buttonAccName,
       Event.waitSel modalSelector, Event.shot screenshotPath,
       Event.write screenshotPath c, Event.print screenshotLine,
       Event.labelQuery labelSelector] ++ rest ∧
    rest.filterMap writtenPair = [] := by
  unfold tryBody
  rw [hg, hc, hw, hs]
  rcases hv : env.locatorVisible labelSelector with e | lv
  · exact ⟨[], by simp, rfl⟩
  rcases hz : env.sublocatorVisible labelSelector starSelector with e | sv
  · rcases lv
    · exact ⟨[Event.labelVisCheck false, Event.starQuery labelSelector starSelector],
        by simp, by simp [writtenPair]⟩
    · exact ⟨[Event.labelVisCheck true, Event.print labelLine,
        Event.starQuery labelSelector starSelector], by simp, by simp [writtenPair]⟩
  · rcases lv <;> rcases sv
    · exact ⟨[Event.labelVisCheck false, Event.starQuery labelSelector starSelector,
        Event.starVisCheck false], by simp, by simp [writtenPair]⟩
    · exact ⟨[Event.labelVisCheck false, Event.starQuery labelSelector starSelector,
        Event.starVisCheck true, Event.print starLine], by simp, by simp [writtenPair]⟩
    · exact ⟨[Event.labelVisCheck true, Event.print labelLine,
        Event.starQuery labelSelector starSelector, Event.starVisCheck false],
        by simp, by simp [writtenPair]⟩
    · exact ⟨[Event.labelVisCheck true, Event.print labelLine,
        Event.starQuery labelSelector starSelector, Event.starVisCheck true,
        Event.print starLine], by simp, by simp [writtenPair]⟩

/-- C5: the screenshot write to the fixed path and its confirmation line
occur only when the modal-text wait has succeeded, and then in strict order:
button click (index 3), modal wait (index 4), screenshot write (index 6),
confirmation print (index 7) — never before the wait; the run's only
filesystem write is the screenshot, which overwrites whatever any prior
filesystem held at `verification/project_modal_a11y.png`. -/
theorem screenshot_after_modal_wait (env : Env)
    (hmem : Event.print screenshotLine ∈ traceOf env ∨
            ∃ c, Event.write screenshotPath c ∈ traceOf env) :
    env.wait_for_selector modalSelector = Except.ok () ∧
    ∃ c, env.screenshot screenshotPath = Except.ok c ∧
      (traceOf env).get? 3 = some (Event.click buttonRole buttonAccName) ∧
      (traceOf env).get? 4 = some (Event.waitSel modalSelector) ∧
      (traceOf env).get? 6 = some (Event.write screenshotPath c) ∧
      (traceOf env).get? 7 = some (Event.print screenshotLine) ∧
      writesOf env = [(screenshotPath, c)] ∧
      ∀ fs, applyWrites fs (writesOf env) screenshotPath = some c := by
  rcases hl : env.launch with e | ⟨⟩
  · exfalso
    simp [traceOf, verify_project_modal, hl] at hmem
  rcases hp : env.new_page with e | ⟨⟩
  · exfalso
    simp [traceOf, verify_project_modal, hl, hp] at hmem
  have hrun := run_eq env hl hp
  have hbody : Event.print screenshotLine ∈ (tryBody env).1 ∨
      ∃ c, Event.write screenshotPath c ∈ (tryBody env).1 := by
    rcases hmem with hpr | ⟨c, hwr⟩
    · left
      simp only [traceOf, hrun, List.mem_append] at hpr
      rcases hpr with ((h12 | hb) | herr) | hcl
      · simp at h12
      · exact hb
      · exfalso
        rcases he : (tryBody env).2 with _ | e2 <;> rw [he] at herr <;>
          simp [errTail] at herr
        exact errLine_ne e2 screenshotLine startsWithErr_screenshotLine herr.symm
      · simp at hcl
    · right
      refine ⟨c, ?_⟩
      simp only [traceOf, hrun, List.mem_append] at hwr
      rcases hwr with ((h12 | hb) | herr) | hcl
      · simp at h12
      · exact hb
      · exfalso
        rcases he : (tryBody env).2 with _ | e2 <;> rw [he] at herr <;>
          simp [errTail] at herr
      · simp at hcl
  obtain ⟨hg, hc, hw, c, hs⟩ := tryBody_shot_success env hbody
  obtain ⟨rest, hshape, hrestw⟩ := tryBody_success_shape env c hg hc hw hs
  have htr : traceOf env = [Event.launch, Event.newPage] ++ (tryBody env).1
      ++ errTail (tryBody env).2 ++ [Event.close] := by
    simp [traceOf, hrun]
  rw [hshape] at htr
  have hwone : writesOf env = [(screenshotPath, c)] := by
    rcases he : (tryBody env).2 with _ | e2 <;>
      simp [writesOf, htr, he, errTail, List.filterMap_append, writtenPair, hrestw]
  refine ⟨hw, c, hs, ?_, ?_, ?_, ?_, hwone, ?_⟩
  · simp [htr]
  · simp [htr]
  · simp [htr]
  · simp [htr]
  · intro fs
    rw [hwone]
    simp [applyWrites]

/-- C5 witness: on the all-success environment the screenshot write and its
confirmation line appear at the stated positions after the modal wait, and
the write overwrites an initially empty filesystem. -/
theorem screenshot_after_modal_wait_witness :
    envAllOk.wait_for_selector modalSelector = Except.ok () ∧
    (traceOf envAllOk).get? 4 = some (Event.waitSel modalSelector) ∧
    (traceOf envAllOk).get? 6 = some (Event.write screenshotPath 7) ∧
    (traceOf envAllOk).get? 7 = some (Event.print screenshotLine) ∧
    applyWrites (fun _ => none) (writesOf envAllOk) screenshotPath = some 7 := by
  obtain ⟨hw, c, hs, h3, h4, h6, h7, hws, hap⟩ :=
    screenshot_after_modal_wait envAllOk (Or.inl (by decide))
  have hc7 : c = 7 := by
    have h2 : (Except.ok c : Except String Nat) = Except.ok 7 :=
      hs.symm.trans (rfl : envAllOk.screenshot screenshotPath = Except.ok 7)
    exact Except.ok.inj h2
  subst hc7
  exact ⟨hw, h4, h6, h7, hap (fun _ => none)⟩

lemma tryBody_all_ok (env : Env) (c : Nat) (lv sv : Bool)
    (hg : env.goto gotoUrl gotoTimeoutMs = Except.ok ())
    (hc : env.clickByRole buttonRole buttonAccName = Except.ok ())
    (hw : env.wait_for_selector modalSelector = Except.ok ())
    (hs : env.screenshot screenshotPath = Except.ok c)
    (hv : env.locatorVisible labelSelector = Except.ok lv)
    (hz : env.sublocatorVisible labelSelector starSelector = Except.ok sv) :
    tryBody env =
      ([Event.goto gotoUrl gotoTimeoutMs, Event.click buttonRole buttonAccName,
        Event.waitSel modalSelector, Event.shot screenshotPath,
        Event.write screenshotPath c, Event.print screenshotLine,
        Event.labelQuery labelSelector, Event.labelVisCheck lv]
        ++ (if lv then [Event.print labelLine] else [])
        ++ ([Event.starQuery labelSelector starSelector, Event.starVisCheck sv]
        ++ (if sv then [Event.print starLine] else [])), none) := by
  unfold tryBody
  rw [hg, hc, hw, hs, hv, hz]
  rcases lv <;> rcases sv <;> simp

/-- C6: once the run reaches step 8 (navigation, click, modal wait and
screenshot succeeded), it queries a label with selector
`label[for='new-book-title']` and prints "Label for new-book-title found."
if and only if that label is reported visible; it then queries, scoped
within that label's subtree, the red required-marker class `.text-red-400`
and prints "Required star visible." if and only if that element is reported
visible. -/
theorem label_and_star_checks (env : Env) (c : Nat) (lv sv : Bool)
    (hl : env.launch = Except.ok ()) (hp : env.new_page = Except.ok ())
    (hg : env.goto gotoUrl gotoTimeoutMs = Except.ok ())
    (hc : env.clickByRole buttonRole buttonAccName = Except.ok ())
    (hw : env.wait_for_selector modalSelector = Except.ok ())
    (hs : env.screenshot screenshotPath = Except.ok c)
    (hv : env.locatorVisible labelSelector = Except.ok lv)
    (hz : env.sublocatorVisible labelSelector starSelector = Except.ok sv) :
    Event.labelQuery labelSelector ∈ traceOf env ∧
    (Event.print labelLine ∈ traceOf env ↔ lv = true) ∧
    Event.starQuery labelSelector starSelector ∈ traceOf env ∧
    (Event.print starLine ∈ traceOf env ↔ sv = true) := by
  have hrun := run_eq env hl hp
  rw [tryBody_all_ok env c lv sv hg hc hw hs hv hz] at hrun
  rcases lv <;> rcases sv <;>
    simp [traceOf, hrun, errTail, labelLine, starLine, screenshotLine]

/-- C6 witness: on the all-success environment (label and marker visible)
both queries run and both confirmation lines are printed. -/
theorem label_and_star_checks_witness :
    Event.labelQuery labelSelector ∈ traceOf envAllOk ∧
    Event.print labelLine ∈ traceOf envAllOk ∧
    Event.starQuery labelSelector starSelector ∈ traceOf envAllOk ∧
    Event.print starLine ∈ traceOf envAllOk := by
  have h := label_and_star_checks envAllOk 7 true true rfl rfl rfl rfl rfl rfl rfl rfl
  exact ⟨h.1, h.2.1.mpr rfl, h.2.2.1, h.2.2.2.mpr rfl⟩

/-- C9: the required-marker check is not gated on the label check's outcome:
when the label visibility check returns false (so "Label for new-book-title
found." is not printed), the scoped star locator is still constructed and its
visibility still tested. -/
theorem star_check_unconditional (env : Env) (c : Nat) (sv : Bool)
    (hl : env.launch = Except.ok ()) (hp : env.new_page = Except.ok ())
    (hg : env.goto gotoUrl gotoTimeoutMs = Except.ok ())
    (hc : env.clickByRole buttonRole buttonAccName = Except.ok ())
    (hw : env.wait_for_selector modalSelector = Except.ok ())
    (hs : env.screenshot screenshotPath = Except.ok c)
    (hv : env.locatorVisible labelSelector = Except.ok false)
    (hz : env.sublocatorVisible labelSelector starSelector = Except.ok sv) :
    Event.print labelLine ∉ traceOf env ∧
    Event.starQuery labelSelector starSelector ∈ traceOf env ∧
    Event.starVisCheck sv ∈ traceOf env := by
  have hrun := run_eq env hl hp
  rw [tryBody_all_ok env c false sv hg hc hw hs hv hz] at hrun
  rcases sv <;>
    simp [traceOf, hrun, errTail, labelLine, starLine, screenshotLine]

/-- C9 witness: label hidden, star visible — the label line is absent but the
star query and its visibility check still happen. -/
theorem star_check_unconditional_witness :
    Event.print labelLine ∉ traceOf envLabelHidden ∧
    Event.starQuery labelSelector starSelector ∈ traceOf envLabelHidden ∧
    Event.starVisCheck true ∈ traceOf envLabelHidden :=
  star_check_unconditional envLabelHidden 7 true rfl rfl rfl rfl rfl rfl rfl rfl

lemma applyWrites_unwritten (ws : List (String × Nat)) :
    ∀ (fs : String → Option Nat) (p : String),
      (∀ w ∈ ws, w.1 ≠ p) → applyWrites fs ws p = fs p := by
  induction ws with
  | nil => intro fs p _; rfl
  | cons w ws ih =>
    intro fs p hno
    have hstep : applyWrites fs (w :: ws) =
        applyWrites (fun q => if q = w.1 then some w.2 else fs q) ws := rfl
    rw [hstep, ih _ p (fun x hx => hno x (List.mem_cons_of_mem w hx))]
    have hwp : w.1 ≠ p := hno w (List.mem_cons_self w ws)
    have hne : ¬ p = w.1 := fun h => hwp h.symm
    simp [hne]

lemma applyWrites_override (ws : List (String × Nat)) :
    ∀ fs gs : String → Option Nat,
      (∀ p, fs p = gs p ∨ ∃ w ∈ ws, w.1 = p) →
      applyWrites fs ws = applyWrites gs ws := by
  induction ws with
  | nil =>
    intro fs gs h
    funext p
    rcases h p with he | ⟨w, hw, _⟩
    · exact he
    · exact absurd hw (List.not_mem_nil w)
  | cons w ws ih =>
    intro fs gs h
    have hstep : ∀ hs : String → Option Nat, applyWrites hs (w :: ws) =
        applyWrites (fun q => if q = w.1 then some w.2 else hs q) ws :=
      fun hs => rfl
    rw [hstep fs, hstep gs]
    apply ih
    intro p
    by_cases hp : p = w.1
    · left; simp [hp]
    · rcases h p with he | ⟨x, hx, hxp⟩
      · left; simp [hp, he]
      · rcases List.mem_cons.mp hx with hxw | hxs
        · exact absurd (hxw ▸ hxp).symm hp
        · right; exact ⟨x, hxs, hxp⟩

lemma applyWrites_idem (ws : List (String × Nat)) (fs : String → Option Nat) :
    applyWrites (applyWrites fs ws) ws = applyWrites fs ws := by
  apply applyWrites_override
  intro p
  by_cases hp : ∃ w ∈ ws, w.1 = p
  · right; exact hp
  · left
    push_neg at hp
    exact applyWrites_unwritten ws fs p hp

/-- One invocation of the script, seen as a transformer of the console (the
lines it prints) and of the filesystem (the writes it applies). -/
def runFs (env : Env) (fs : String → Option Nat) :
    List String × (String → Option Nat) :=
  (outputOf env, applyWrites fs (writesOf env))

/-- C8: against a fixed environment behaviour, a second successive run prints
exactly the same console output as the first and leaves the filesystem
exactly as the first run left it — the screenshot path is simply rewritten
with the same content and no state accumulates between runs; moreover the
console output never depends on the starting filesystem. -/
theorem two_run_determinism (env : Env) (fs0 fs1 : String → Option Nat) :
    (runFs env ((runFs env fs0).2)).1 = (runFs env fs0).1 ∧
    (runFs env ((runFs env fs0).2)).2 = (runFs env fs0).2 ∧
    (runFs env fs0).1 = (runFs env fs1).1 := by
  refine ⟨rfl, ?_, rfl⟩
  exact applyWrites_idem (writesOf env) fs0

lemma startsWithErr_labelLine : startsWithErr labelLine = false := by decide

lemma startsWithErr_starLine : startsWithErr starLine = false := by decide

lemma bodyOut_no_err (env : Env) :
    ∀ l ∈ (tryBody env).1.filterMap printedLine, startsWithErr l = false := by
  intro l hl
  have hmem : Event.print l ∈ (tryBody env).1 := by
    rcases List.mem_filterMap.mp hl with ⟨ev, hev, hpl⟩
    cases ev <;> simp [printedLine] at hpl
    rwa [hpl] at hev
  rcases tryBody_print_mem env l hmem with h | h | h <;> rw [h]
  · exact startsWithErr_screenshotLine
  · exact startsWithErr_labelLine
  · exact startsWithErr_starLine

/-- C10: in every run, at most one printed line starts with `"Error: "`, and
whenever such a line is printed it is the last line of the console output —
no screenshot, label, or required-marker confirmation line ever follows it. -/
theorem error_line_last (env : Env) :
    ((outputOf env).filter (fun l => startsWithErr l)).length ≤ 1 ∧
    ∀ l ∈ outputOf env, startsWithErr l = true → (outputOf env).getLast? = some l := by
  rcases hl : env.launch with e | ⟨⟩
  · constructor <;> simp [outputOf, traceOf, verify_project_modal, hl, printedLine]
  rcases hp : env.new_page with e | ⟨⟩
  · constructor <;> simp [outputOf, traceOf, verify_project_modal, hl, hp, printedLine]
  have hrun := run_eq env hl hp
  have hout : outputOf env = (tryBody env).1.filterMap printedLine
      ++ (errTail (tryBody env).2).filterMap printedLine := by
    simp [outputOf, traceOf, hrun, List.filterMap_append, printedLine]
  have hbody := bodyOut_no_err env
  rcases he : (tryBody env).2 with _ | e2
  · rw [he] at hout
    simp only [errTail, List.filterMap_nil, List.append_nil] at hout
    constructor
    · rw [hout]
      have : ((tryBody env).1.filterMap printedLine).filter
          (fun l => startsWithErr l) = [] :=
        List.filter_eq_nil_iff.mpr (by intro a ha; simp [hbody a ha])
      simp [this]
    · intro l hlmem hlerr
      rw [hout] at hlmem
      exact absurd hlerr (by simp [hbody l hlmem])
  · rw [he] at hout
    simp only [errTail, List.filterMap_cons, printedLine, List.filterMap_nil] at hout
    constructor
    · rw [hout]
      rw [List.filter_append]
      have hnil : ((tryBody env).1.filterMap printedLine).filter
          (fun l => startsWithErr l) = [] :=
        List.filter_eq_nil_iff.mpr (by intro a ha; simp [hbody a ha])
      simp [hnil, startsWithErr_append]
    · intro l hlmem hlerr
      rw [hout] at hlmem ⊢
      rcases List.mem_append.mp hlmem with hb | hs
      · exact absurd hlerr (by simp [hbody l hb])
      · simp only [List.mem_singleton] at hs
        rw [hs, List.getLast?_concat]

/-- C8 witness: two successive runs of the all-success environment from an
empty filesystem agree on console output and final filesystem, and the
output does not depend on the starting filesystem. -/
theorem two_run_determinism_witness :
    (runFs envAllOk ((runFs envAllOk (fun _ => none)).2)).1
        = (runFs envAllOk (fun _ => none)).1 ∧
    (runFs envAllOk ((runFs envAllOk (fun _ => none)).2)).2
        = (runFs envAllOk (fun _ => none)).2 ∧
    (runFs envAllOk (fun _ => none)).1 = (runFs envAllOk (fun _ => some 0)).1 :=
  two_run_determinism envAllOk (fun _ => none) (fun _ => some 0)

/-- C10 witness: on the no-server environment the single `"Error: "` line is
the last line of the console output. -/
theorem error_line_last_witness :
    ((outputOf envGotoFail).filter (fun l => startsWithErr l)).length ≤ 1 ∧
    (outputOf envGotoFail).getLast? = some ("Error: " ++ "net::ERR_CONNECTION_REFUSED") :=
  ⟨(error_line_last envGotoFail).1,
   (error_line_last envGotoFail).2 ("Error: " ++ "net::ERR_CONNECTION_REFUSED")
     (by decide) (startsWithErr_append "net::ERR_CONNECTION_REFUSED")⟩
